import Mathlib

/-
Verification of the PropForecast financial calculator.

The source is a JavaScript module of pure arithmetic functions computing a
property-investment forecast for the South African market.  JavaScript numbers
are modelled as exact rationals (ℚ); the decimal literals of the source
(0.03, 1.15, 10.75, ...) are exact in ℚ, and every operation the code performs
on the claims' inputs is rational arithmetic except `Math.pow` with the
fractional exponent 1/years inside the annualized-ROI computation, which is
modelled by real rpow (ℝ).  Loan terms and projection horizons are whole
numbers of years, modelled as ℕ so that `Math.pow(base, years*12)` is the
monoid power.  The `Infinity` sentinel returned by the breakeven calculator is
modelled as ⊤ in `WithTop ℚ`.
-/

namespace PropForecast

/-- Transfer duty on a purchase price, South African 2023/2024 schedule
(source: `calculateTransferDuty`). -/
def calculateTransferDuty (purchasePrice : ℚ) : ℚ :=
  if purchasePrice ≤ 1000000 then
    0
  else if purchasePrice ≤ 1375000 then
    (purchasePrice - 1000000) * 0.03
  else if purchasePrice ≤ 1925000 then
    11250 + (purchasePrice - 1375000) * 0.06
  else if purchasePrice ≤ 2475000 then
    44250 + (purchasePrice - 1925000) * 0.08
  else if purchasePrice ≤ 11000000 then
    88250 + (purchasePrice - 2475000) * 0.11
  else
    1026000 + (purchasePrice - 11000000) * 0.13

/-- Branch formula of band 1 of `calculateTransferDuty` (price ≤ 1,000,000). -/
def dutyBand1 (_p : ℚ) : ℚ := 0

/-- Branch formula of band 2 of `calculateTransferDuty` (price ≤ 1,375,000). -/
def dutyBand2 (p : ℚ) : ℚ := (p - 1000000) * 0.03

/-- Branch formula of band 3 of `calculateTransferDuty` (price ≤ 1,925,000). -/
def dutyBand3 (p : ℚ) : ℚ := 11250 + (p - 1375000) * 0.06

/-- Branch formula of band 4 of `calculateTransferDuty` (price ≤ 2,475,000). -/
def dutyBand4 (p : ℚ) : ℚ := 44250 + (p - 1925000) * 0.08

/-- Branch formula of band 5 of `calculateTransferDuty` (price ≤ 11,000,000). -/
def dutyBand5 (p : ℚ) : ℚ := 88250 + (p - 2475000) * 0.11

/-- Branch formula of band 6 of `calculateTransferDuty` (price > 11,000,000). -/
def dutyBand6 (p : ℚ) : ℚ := 1026000 + (p - 11000000) * 0.13

/-- Transfer duty as the spec words it: a six-band progressive marginal
schedule.  Each band's duty is the prior band's cumulative base plus the
band's marginal rate (3%, 6%, 8%, 11%, 13% in successive bands) applied to
the excess over that band's floor; the cumulative bases are accumulated from
the rates, not taken over from the source literals. -/
def transferDutySpec (p : ℚ) : ℚ :=
  let base2 : ℚ := 0
  let base3 : ℚ := base2 + (1375000 - 1000000) * 0.03
  let base4 : ℚ := base3 + (1925000 - 1375000) * 0.06
  let base5 : ℚ := base4 + (2475000 - 1925000) * 0.08
  let base6 : ℚ := base5 + (11000000 - 2475000) * 0.11
  if p ≤ 1000000 then 0
  else if p ≤ 1375000 then base2 + (p - 1000000) * 0.03
  else if p ≤ 1925000 then base3 + (p - 1375000) * 0.06
  else if p ≤ 2475000 then base4 + (p - 1925000) * 0.08
  else if p ≤ 11000000 then base5 + (p - 2475000) * 0.11
  else base6 + (p - 11000000) * 0.13

/-- Attorney fees for a property transfer: a five-band piecewise-linear base
fee, then VAT at 15% (source: `calculateAttorneyFees`). -/
def calculateAttorneyFees (purchasePrice : ℚ) : ℚ :=
  let baseFee : ℚ :=
    if purchasePrice ≤ 100000 then 4500
    else if purchasePrice ≤ 500000 then 4500 + (purchasePrice - 100000) * 0.015
    else if purchasePrice ≤ 1000000 then 10500 + (purchasePrice - 500000) * 0.01
    else if purchasePrice ≤ 5000000 then 15500 + (purchasePrice - 1000000) * 0.007
    else 43500 + (purchasePrice - 5000000) * 0.003
  baseFee * 1.15

/-- Attorney fees as the spec words them: five price bands, each a fixed base
plus a marginal rate applied to the excess over the band's floor, the result
multiplied by the fixed surcharge factor 1.15. -/
def attorneyFeesSpec (p : ℚ) : ℚ :=
  (if p ≤ 100000 then 4500 + (p - 0) * 0
   else if p ≤ 500000 then 4500 + (p - 100000) * 0.015
   else if p ≤ 1000000 then 10500 + (p - 500000) * 0.01
   else if p ≤ 5000000 then 15500 + (p - 1000000) * 0.007
   else 43500 + (p - 5000000) * 0.003) * 1.15

/-- Monthly bond repayment for a loan (source: `calculateMonthlyBondRepayment`).
The term is a whole number of years; the monthly rate is the annual percentage
rate divided by 100 and by 12. -/
def calculateMonthlyBondRepayment (principal annualInterestRate : ℚ)
    (termYears : ℕ) : ℚ :=
  let monthlyInterestRate : ℚ := annualInterestRate / 100 / 12
  let numberOfPayments : ℕ := termYears * 12
  if monthlyInterestRate = 0 then
    principal / (numberOfPayments : ℚ)
  else
    principal *
      (monthlyInterestRate * (1 + monthlyInterestRate) ^ numberOfPayments) /
      ((1 + monthlyInterestRate) ^ numberOfPayments - 1)

/-- Monthly payment as the spec words it for a nonzero rate: the amortization
formula P · r(1+r)^n / ((1+r)^n − 1) with monthly rate r = annualRate/1200 and
n = termYears · 12. -/
def monthlyPaymentSpec (principal annualRate : ℚ) (termYears : ℕ) : ℚ :=
  let r : ℚ := annualRate / 1200
  let n : ℕ := termYears * 12
  principal * (r * (1 + r) ^ n) / ((1 + r) ^ n - 1)

/-- C1: for every purchase price, `calculateTransferDuty` implements the
six-band progressive marginal schedule with cumulative bases accumulated from
the rates 3%, 6%, 8%, 11%, 13%; in particular the first boundary is inclusive:
`calculateTransferDuty 1000000 = 0`. -/
theorem transferDuty_matches_spec :
    (∀ p : ℚ, calculateTransferDuty p = transferDutySpec p) ∧
      calculateTransferDuty 1000000 = 0 := by
  constructor
  · intro p
    unfold calculateTransferDuty transferDutySpec
    split_ifs <;> norm_num
  · unfold calculateTransferDuty
    norm_num

/-- C2: at each of the five internal bracket boundaries of
`calculateTransferDuty`, the duty is continuous: the lower band's formula at
the threshold equals the upper band's formula there (its cumulative base,
since the excess is zero), and `calculateTransferDuty` itself takes that
common value. -/
theorem transferDuty_continuous_at_boundaries :
    (dutyBand1 1000000 = dutyBand2 1000000 ∧
        calculateTransferDuty 1000000 = dutyBand1 1000000) ∧
    (dutyBand2 1375000 = dutyBand3 1375000 ∧
        calculateTransferDuty 1375000 = dutyBand2 1375000) ∧
    (dutyBand3 1925000 = dutyBand4 1925000 ∧
        calculateTransferDuty 1925000 = dutyBand3 1925000) ∧
    (dutyBand4 2475000 = dutyBand5 2475000 ∧
        calculateTransferDuty 2475000 = dutyBand4 2475000) ∧
    (dutyBand5 11000000 = dutyBand6 11000000 ∧
        calculateTransferDuty 11000000 = dutyBand5 11000000) := by
  unfold calculateTransferDuty dutyBand1 dutyBand2 dutyBand3 dutyBand4 dutyBand5 dutyBand6
  norm_num

/-- C9: for every purchase price, `calculateAttorneyFees` is a piecewise-linear
base fee over five price bands, each band a fixed base plus a marginal rate on
the excess over the band's floor, multiplied by the fixed surcharge 1.15. -/
theorem attorneyFees_matches_spec :
    ∀ p : ℚ, calculateAttorneyFees p = attorneyFeesSpec p := by
  intro p
  unfold calculateAttorneyFees attorneyFeesSpec
  split_ifs <;> ring

/-- C3: with a zero annual rate the bond repayment is the principal divided by
the number of payments, and with a nonzero annual rate it is the amortization
formula P · r(1+r)^n / ((1+r)^n − 1), r = annualRate/1200, n = termYears · 12. -/
theorem monthlyBondRepayment_formula :
    (∀ (principal : ℚ) (termYears : ℕ), 0 < termYears →
        calculateMonthlyBondRepayment principal 0 termYears =
          principal / ((termYears : ℚ) * 12)) ∧
    (∀ (principal annualRate : ℚ) (termYears : ℕ), annualRate ≠ 0 →
        calculateMonthlyBondRepayment principal annualRate termYears =
          monthlyPaymentSpec principal annualRate termYears) := by
  constructor
  · intro principal termYears _
    unfold calculateMonthlyBondRepayment
    norm_num
  · intro principal annualRate termYears hr
    unfold calculateMonthlyBondRepayment monthlyPaymentSpec
    have hm : annualRate / 100 / 12 ≠ 0 :=
      div_ne_zero (div_ne_zero hr (by norm_num)) (by norm_num)
    rw [if_neg hm]
    have : annualRate / 100 / 12 = annualRate / 1200 := by ring
    rw [this]

/-- Witness for C3 at principal 1200, rate 0 resp. 6, term 1 year. -/
theorem monthlyBondRepayment_formula_witness :
    calculateMonthlyBondRepayment 1200 0 1 = 1200 / ((1 : ℚ) * 12) ∧
      calculateMonthlyBondRepayment 1200 6 1 = monthlyPaymentSpec 1200 6 1 := by
  constructor
  · exact monthlyBondRepayment_formula.1 1200 1 (by norm_num)
  · exact monthlyBondRepayment_formula.2 1200 6 1 (by norm_num)

/-- Breakdown of once-off purchase costs (source: `calculateTotalPurchaseCosts`
return object). -/
structure PurchaseCosts where
  transferDuty : ℚ
  attorneyFees : ℚ
  deedsOfficeRegistration : ℚ
  electronicallyFacilitatedTransfer : ℚ
  total : ℚ
  deriving DecidableEq

/-- Total purchase costs: duty, attorney fees, two fixed registration fees and
their sum (source: `calculateTotalPurchaseCosts`). -/
def calculateTotalPurchaseCosts (purchasePrice : ℚ) : PurchaseCosts :=
  let transferDuty := calculateTransferDuty purchasePrice
  let attorneyFees := calculateAttorneyFees purchasePrice
  let deedsOfficeRegistration : ℚ := 1500
  let electronicallyFacilitatedTransfer : ℚ := 1800
  { transferDuty := transferDuty
    attorneyFees := attorneyFees
    deedsOfficeRegistration := deedsOfficeRegistration
    electronicallyFacilitatedTransfer := electronicallyFacilitatedTransfer
    total := transferDuty + attorneyFees + deedsOfficeRegistration +
      electronicallyFacilitatedTransfer }

/-- Breakdown of monthly running expenses (source: `calculateMonthlyExpenses`
return object). -/
structure MonthlyExpenses where
  levies : ℚ
  ratesAndTaxes : ℚ
  maintenance : ℚ
  total : ℚ
  deriving DecidableEq

/-- Monthly expenses: levies, rates, monthly maintenance from the annual
percentage, and their sum (source: `calculateMonthlyExpenses`). -/
def calculateMonthlyExpenses (purchasePrice monthlyLevies monthlyRates
    maintenancePercentage : ℚ) : MonthlyExpenses :=
  let monthlyMaintenance := purchasePrice * (maintenancePercentage / 100) / 12
  { levies := monthlyLevies
    ratesAndTaxes := monthlyRates
    maintenance := monthlyMaintenance
    total := monthlyLevies + monthlyRates + monthlyMaintenance }

/-- Vacancy-adjusted monthly rental income (source:
`calculateEffectiveRentalIncome`). -/
def calculateEffectiveRentalIncome (expectedRent vacancyRate : ℚ) : ℚ :=
  expectedRent * (1 - vacancyRate / 100)

/-- Four rental-yield ratios (source: `calculateYields` return object). -/
structure YieldMetrics where
  grossYieldOnPrice : ℚ
  grossYieldOnInvestment : ℚ
  netYieldOnPrice : ℚ
  netYieldOnInvestment : ℚ
  deriving DecidableEq

/-- Rental yields: gross and net, each on price and on total investment
(source: `calculateYields`). -/
def calculateYields (purchasePrice totalPurchaseCost expectedRent effectiveRent
    monthlyExpenses : ℚ) : YieldMetrics :=
  { grossYieldOnPrice := expectedRent * 12 / purchasePrice * 100
    grossYieldOnInvestment := expectedRent * 12 / totalPurchaseCost * 100
    netYieldOnPrice := (effectiveRent - monthlyExpenses) * 12 / purchasePrice * 100
    netYieldOnInvestment :=
      (effectiveRent - monthlyExpenses) * 12 / totalPurchaseCost * 100 }

/-- Monthly and annual net cash flow (source: `calculateCashFlow` return
object). -/
structure CashFlowMetrics where
  monthly : ℚ
  annual : ℚ
  deriving DecidableEq

/-- Cash flow: rent minus expenses minus bond payment, monthly and annualized
(source: `calculateCashFlow`). -/
def calculateCashFlow (effectiveRent monthlyExpenses monthlyBondRepayment : ℚ) :
    CashFlowMetrics :=
  let monthlyCashFlow := effectiveRent - monthlyExpenses - monthlyBondRepayment
  { monthly := monthlyCashFlow
    annual := monthlyCashFlow * 12 }

/-- Compound appreciation of a property value over a whole number of years
(source: `calculateAppreciation`). -/
def calculateAppreciation (propertyValue annualRate : ℚ) (years : ℕ) : ℚ :=
  let futureValue := propertyValue * (1 + annualRate / 100) ^ years
  futureValue - propertyValue

/-- Rough equity build through bond repayments: total payments over the
horizon times a fixed 0.4 coefficient; the total loan term is accepted but
unused (source: `calculateEquityBuild`). -/
def calculateEquityBuild (monthlyPayment : ℚ) (_totalTermYears : ℕ)
    (yearsToCalculate : ℕ) : ℚ :=
  let totalPayments := monthlyPayment * 12 * (yearsToCalculate : ℚ)
  totalPayments * 0.4

/-- ROI projection for one horizon (source: the per-horizon objects returned
by `calculateROI`).  All fields but `annualizedROI` are rational; the
annualized return takes a fractional real power. -/
structure ROIHorizon where
  appreciation : ℚ
  cashFlow : ℚ
  equityBuild : ℚ
  totalReturn : ℚ
  roi : ℚ
  annualizedROI : ℝ

/-- ROI projections for the 5- and 10-year horizons (source: `calculateROI`
return object). -/
structure ROIResult where
  fiveYear : ROIHorizon
  tenYear : ROIHorizon

/-- Named parameters of `calculateROI`; the appreciation rate defaults to 5
exactly as in the source's destructuring default. -/
structure ROIParams where
  deposit : ℚ
  totalPurchaseCost : ℚ
  annualCashFlow : ℚ
  monthlyBondRepayment : ℚ
  loanTermYears : ℕ
  annualAppreciationRate : ℚ := 5

/-- Return-on-investment projections for 5 and 10 years (source:
`calculateROI`). -/
noncomputable def calculateROI (p : ROIParams) : ROIResult :=
  let initialInvestment := p.deposit + (p.totalPurchaseCost - p.deposit)
  let fiveYearAppreciation :=
    calculateAppreciation p.totalPurchaseCost p.annualAppreciationRate 5
  let fiveYearCashFlow := p.annualCashFlow * 5
  let fiveYearEquityBuild :=
    calculateEquityBuild p.monthlyBondRepayment p.loanTermYears 5
  let fiveYearTotalReturn :=
    fiveYearAppreciation + fiveYearCashFlow + fiveYearEquityBuild
  let fiveYearROI := fiveYearTotalReturn / initialInvestment * 100
  let fiveYearAnnualizedROI : ℝ :=
    (1 + (fiveYearROI : ℝ) / 100) ^ ((1 : ℝ) / 5) - 1
  let tenYearAppreciation :=
    calculateAppreciation p.totalPurchaseCost p.annualAppreciationRate 10
  let tenYearCashFlow := p.annualCashFlow * 10
  let tenYearEquityBuild :=
    calculateEquityBuild p.monthlyBondRepayment p.loanTermYears 10
  let tenYearTotalReturn :=
    tenYearAppreciation + tenYearCashFlow + tenYearEquityBuild
  let tenYearROI := tenYearTotalReturn / initialInvestment * 100
  let tenYearAnnualizedROI : ℝ :=
    (1 + (tenYearROI : ℝ) / 100) ^ ((1 : ℝ) / 10) - 1
  { fiveYear :=
      { appreciation := fiveYearAppreciation
        cashFlow := fiveYearCashFlow
        equityBuild := fiveYearEquityBuild
        totalReturn := fiveYearTotalReturn
        roi := fiveYearROI
        annualizedROI := fiveYearAnnualizedROI * 100 }
    tenYear :=
      { appreciation := tenYearAppreciation
        cashFlow := tenYearCashFlow
        equityBuild := tenYearEquityBuild
        totalReturn := tenYearTotalReturn
        roi := tenYearROI
        annualizedROI := tenYearAnnualizedROI * 100 } }

/-- Breakeven point in months and years; ⊤ models the source's `Infinity`
sentinel (source: `calculateBreakeven` return object). -/
structure BreakevenResult where
  months : WithTop ℚ
  years : WithTop ℚ
  deriving DecidableEq

/-- Breakeven point: unbounded when monthly cash flow is non-positive,
otherwise the ceiling of outflow over monthly cash flow (source:
`calculateBreakeven`). -/
def calculateBreakeven (initialCashOutflow monthlyCashFlow : ℚ) :
    BreakevenResult :=
  if monthlyCashFlow ≤ 0 then
    { months := ⊤, years := ⊤ }
  else
    let months : ℚ := (⌈initialCashOutflow / monthlyCashFlow⌉ : ℚ)
    { months := (months : WithTop ℚ)
      years := ((months / 12 : ℚ) : WithTop ℚ) }

/-- Named parameters of `generateInvestmentSummary`: the four forecast
sub-records the narrative generator reads. -/
structure SummaryParams where
  cashFlow : CashFlowMetrics
  yields : YieldMetrics
  roi : ROIResult
  breakeven : BreakevenResult

/-- Natural-language investment summary: four independent threshold ladders
and a combined closing ladder, concatenated in order (source:
`generateInvestmentSummary`). -/
noncomputable def generateInvestmentSummary (p : SummaryParams) : String :=
  let s1 :=
    if p.cashFlow.monthly > 500 then
      "This property is cash flow positive, generating a healthy monthly surplus. "
    else if p.cashFlow.monthly > 0 then
      "This property is slightly cash flow positive, covering all expenses with a small margin. "
    else if p.cashFlow.monthly > -500 then
      "This property is slightly cash flow negative, requiring a small monthly contribution. "
    else
      "This property is significantly cash flow negative, requiring substantial monthly contributions. "
  let s2 :=
    if p.yields.netYieldOnInvestment > 8 then
      "The net yield is excellent compared to South African market averages. "
    else if p.yields.netYieldOnInvestment > 6 then
      "The net yield is good for the South African market. "
    else if p.yields.netYieldOnInvestment > 4 then
      "The net yield is average for the South African market. "
    else
      "The net yield is below average for the South African market. "
  let s3 :=
    if p.roi.tenYear.annualizedROI > 15 then
      "The 10-year return on investment projection is very strong. "
    else if p.roi.tenYear.annualizedROI > 10 then
      "The 10-year return on investment projection is good. "
    else if p.roi.tenYear.annualizedROI > 7 then
      "The 10-year return on investment projection is moderate. "
    else
      "The 10-year return on investment projection is below average. "
  let s4 :=
    if p.breakeven.years < 5 then
      "You should recover your initial investment relatively quickly. "
    else if p.breakeven.years < 10 then
      "The breakeven period is reasonable for a long-term investment. "
    else if p.breakeven.years < 20 then
      "The breakeven period is quite long, making this a very long-term investment. "
    else
      "The breakeven period extends beyond 20 years, raising concerns about this investment. "
  let s5 :=
    if p.roi.tenYear.annualizedROI > 12 ∧ p.yields.netYieldOnInvestment > 6 then
      "Overall, this property appears to be a strong investment opportunity."
    else if p.roi.tenYear.annualizedROI > 8 ∧ p.yields.netYieldOnInvestment > 4 then
      "Overall, this property appears to be a reasonable investment opportunity."
    else if p.cashFlow.monthly > 0 then
      "This property may be worth considering primarily for its positive cash flow, despite modest long-term returns."
    else
      "This property presents some investment challenges and may require careful consideration of future market trends and personal investment goals."
  s1 ++ s2 ++ s3 ++ s4 ++ s5

/-- Input record of the orchestrator (source: the destructuring at the top of
`generatePropertyForecast`).  The loan term is a whole number of years. -/
structure PropertyInput where
  propertyType : String
  purchasePrice : ℚ
  deposit : ℚ
  interestRate : ℚ
  loanTerm : ℕ
  monthlyLevies : ℚ
  monthlyRates : ℚ
  expectedRent : ℚ
  bedrooms : ℕ
  bathrooms : ℕ
  location : String
  maintenancePercentage : ℚ
  vacancyRate : ℚ

/-- Descriptive sub-record of the forecast (source: `propertyDetails`). -/
structure PropertyDetails where
  propertyType : String
  location : String
  bedrooms : ℕ
  bathrooms : ℕ
  purchasePrice : ℚ
  totalPurchaseCost : ℚ

/-- Financing sub-record of the forecast (source: `financingDetails`). -/
structure FinancingDetails where
  deposit : ℚ
  loanAmount : ℚ
  interestRate : ℚ
  loanTerm : ℕ
  monthlyBondRepayment : ℚ

/-- Rental sub-record of the forecast (source: `rentalDetails`). -/
structure RentalDetails where
  expectedRent : ℚ
  vacancyRate : ℚ
  effectiveRent : ℚ

/-- Complete investment forecast (source: the object returned by
`generatePropertyForecast`). -/
structure Forecast where
  propertyDetails : PropertyDetails
  financingDetails : FinancingDetails
  purchaseCosts : PurchaseCosts
  rentalDetails : RentalDetails
  expenses : MonthlyExpenses
  yields : YieldMetrics
  cashFlow : CashFlowMetrics
  roi : ROIResult
  breakeven : BreakevenResult
  investmentSummary : String

/-- Complete property investment forecast (source:
`generatePropertyForecast`). -/
noncomputable def generatePropertyForecast (d : PropertyInput) : Forecast :=
  let loanAmount := d.purchasePrice - d.deposit
  let purchaseCosts := calculateTotalPurchaseCosts d.purchasePrice
  let totalPurchaseCost := d.purchasePrice + purchaseCosts.total
  let monthlyBondRepayment :=
    calculateMonthlyBondRepayment loanAmount d.interestRate d.loanTerm
  let expenses := calculateMonthlyExpenses d.purchasePrice d.monthlyLevies
    d.monthlyRates d.maintenancePercentage
  let effectiveRent := calculateEffectiveRentalIncome d.expectedRent d.vacancyRate
  let yields := calculateYields d.purchasePrice totalPurchaseCost d.expectedRent
    effectiveRent expenses.total
  let cashFlow := calculateCashFlow effectiveRent expenses.total monthlyBondRepayment
  let roi := calculateROI
    { deposit := d.deposit
      totalPurchaseCost := totalPurchaseCost
      annualCashFlow := cashFlow.annual
      monthlyBondRepayment := monthlyBondRepayment
      loanTermYears := d.loanTerm }
  let breakeven := calculateBreakeven (d.deposit + purchaseCosts.total) cashFlow.monthly
  { propertyDetails :=
      { propertyType := d.propertyType
        location := d.location
        bedrooms := d.bedrooms
        bathrooms := d.bathrooms
        purchasePrice := d.purchasePrice
        totalPurchaseCost := totalPurchaseCost }
    financingDetails :=
      { deposit := d.deposit
        loanAmount := loanAmount
        interestRate := d.interestRate
        loanTerm := d.loanTerm
        monthlyBondRepayment := monthlyBondRepayment }
    purchaseCosts := purchaseCosts
    rentalDetails :=
      { expectedRent := d.expectedRent
        vacancyRate := d.vacancyRate
        effectiveRent := effectiveRent }
    expenses := expenses
    yields := yields
    cashFlow := cashFlow
    roi := roi
    breakeven := breakeven
    investmentSummary := generateInvestmentSummary
      { cashFlow := cashFlow
        yields := yields
        roi := roi
        breakeven := breakeven } }

/-- C5: in `calculateROI` the initial investment `deposit +
(totalPurchaseCost − deposit)` reduces to `totalPurchaseCost`, so for both
horizons the reported roi equals totalReturn / totalPurchaseCost × 100, and
the annualized ROI equals ((1 + roi/100)^(1/years) − 1) × 100. -/
theorem roi_initialInvestment_reduces :
    ∀ p : ROIParams,
      p.deposit + (p.totalPurchaseCost - p.deposit) = p.totalPurchaseCost ∧
      (calculateROI p).fiveYear.roi =
        (calculateROI p).fiveYear.totalReturn / p.totalPurchaseCost * 100 ∧
      (calculateROI p).tenYear.roi =
        (calculateROI p).tenYear.totalReturn / p.totalPurchaseCost * 100 ∧
      (calculateROI p).fiveYear.annualizedROI =
        ((1 + ((calculateROI p).fiveYear.roi : ℝ) / 100) ^ ((1 : ℝ) / 5) - 1) * 100 ∧
      (calculateROI p).tenYear.annualizedROI =
        ((1 + ((calculateROI p).tenYear.roi : ℝ) / 100) ^ ((1 : ℝ) / 10) - 1) * 100 := by
  intro p
  have hred : p.deposit + (p.totalPurchaseCost - p.deposit) = p.totalPurchaseCost := by
    ring
  refine ⟨hred, ?_, ?_, ?_, ?_⟩ <;>
    simp only [calculateROI, hred]

/-- C10: `calculateROI` is insensitive to its `loanTermYears` parameter —
two parameter records differing only there give identical outputs — because
`calculateEquityBuild` returns monthlyPayment × 12 × years × 0.4 and ignores
its total-term parameter. -/
theorem roi_independent_of_loanTerm :
    (∀ (deposit totalPurchaseCost annualCashFlow monthlyBondRepayment
        rate : ℚ) (t1 t2 : ℕ),
      calculateROI ⟨deposit, totalPurchaseCost, annualCashFlow,
          monthlyBondRepayment, t1, rate⟩ =
        calculateROI ⟨deposit, totalPurchaseCost, annualCashFlow,
          monthlyBondRepayment, t2, rate⟩) ∧
    (∀ (monthlyPayment : ℚ) (totalTermYears yearsToCalculate : ℕ),
      calculateEquityBuild monthlyPayment totalTermYears yearsToCalculate =
        monthlyPayment * 12 * (yearsToCalculate : ℚ) * 0.4) := by
  constructor
  · intro deposit totalPurchaseCost annualCashFlow monthlyBondRepayment rate t1 t2
    rfl
  · intro monthlyPayment totalTermYears yearsToCalculate
    rfl

/-- C6: `calculateBreakeven` returns the ⊤ sentinel in both fields exactly
when the monthly cash flow is non-positive (in particular at cash flow 0 and
−1 for any positive outflow); for positive cash flow the months are the
ceiling of outflow over cash flow and the years are months/12; at outflow
225,000 and cash flow 600 this gives 375 months = 31.25 years. -/
theorem breakeven_spec :
    (∀ x c : ℚ, c ≤ 0 →
      calculateBreakeven x c = { months := ⊤, years := ⊤ }) ∧
    (∀ x : ℚ, 0 < x →
      (calculateBreakeven x 0).months = ⊤ ∧
        (calculateBreakeven x (-1)).months = ⊤) ∧
    (∀ x c : ℚ, 0 < c →
      (calculateBreakeven x c).months = ((⌈x / c⌉ : ℚ) : WithTop ℚ) ∧
        (calculateBreakeven x c).years = (((⌈x / c⌉ : ℚ) / 12 : ℚ) : WithTop ℚ)) ∧
    calculateBreakeven 225000 600 =
      { months := ((375 : ℚ) : WithTop ℚ), years := ((31.25 : ℚ) : WithTop ℚ) } := by
  have hpos : ∀ x c : ℚ, 0 < c →
      (calculateBreakeven x c).months = ((⌈x / c⌉ : ℚ) : WithTop ℚ) ∧
        (calculateBreakeven x c).years = (((⌈x / c⌉ : ℚ) / 12 : ℚ) : WithTop ℚ) := by
    intro x c hc
    unfold calculateBreakeven
    rw [if_neg (not_le.mpr hc)]
    exact ⟨rfl, rfl⟩
  refine ⟨?_, ?_, hpos, ?_⟩
  · intro x c hc
    unfold calculateBreakeven
    rw [if_pos hc]
  · intro x _
    constructor
    · unfold calculateBreakeven
      rw [if_pos le_rfl]
    · unfold calculateBreakeven
      rw [if_pos (by norm_num)]
  · have h := hpos 225000 600 (by norm_num)
    have hm : ((⌈(225000 : ℚ) / 600⌉ : ℚ) : WithTop ℚ) = ((375 : ℚ) : WithTop ℚ) := by
      norm_num
    have hy : ((((⌈(225000 : ℚ) / 600⌉ : ℚ) / 12 : ℚ)) : WithTop ℚ) =
        ((31.25 : ℚ) : WithTop ℚ) := by
      norm_num
    rcases h with ⟨h1, h2⟩
    cases hb : calculateBreakeven 225000 600 with
    | mk m y =>
      rw [hb] at h1 h2
      simp only at h1 h2
      rw [h1, h2, hm] at *
      exact congrArg₂ BreakevenResult.mk hm hy

/-- Witness for C6 at outflow 100 with cash flows −3, 0, −1 and 8. -/
theorem breakeven_spec_witness :
    calculateBreakeven 100 (-3) = { months := ⊤, years := ⊤ } ∧
      ((calculateBreakeven 100 0).months = ⊤ ∧
        (calculateBreakeven 100 (-1)).months = ⊤) ∧
      (calculateBreakeven 100 8).months = ((⌈(100 : ℚ) / 8⌉ : ℚ) : WithTop ℚ) :=
  ⟨breakeven_spec.1 100 (-3) (by norm_num),
    breakeven_spec.2.1 100 (by norm_num),
    (breakeven_spec.2.2.1 100 8 (by norm_num)).1⟩

/-- C7: for every input, `generatePropertyForecast` sets the loan amount to
price − deposit and the total purchase cost to price + costs.total; it calls
`calculateROI` with the fixed default appreciation rate 5 (none is threaded
from the input record); and it calls `calculateBreakeven` with deposit +
costs.total as the initial outflow. -/
theorem forecast_orchestration :
    ∀ d : PropertyInput,
      (generatePropertyForecast d).financingDetails.loanAmount =
        d.purchasePrice - d.deposit ∧
      (generatePropertyForecast d).propertyDetails.totalPurchaseCost =
        d.purchasePrice + (calculateTotalPurchaseCosts d.purchasePrice).total ∧
      (generatePropertyForecast d).roi = calculateROI
        { deposit := d.deposit
          totalPurchaseCost :=
            d.purchasePrice + (calculateTotalPurchaseCosts d.purchasePrice).total
          annualCashFlow := (generatePropertyForecast d).cashFlow.annual
          monthlyBondRepayment :=
            (generatePropertyForecast d).financingDetails.monthlyBondRepayment
          loanTermYears := d.loanTerm
          annualAppreciationRate := 5 } ∧
      (generatePropertyForecast d).breakeven = calculateBreakeven
        (d.deposit + (calculateTotalPurchaseCosts d.purchasePrice).total)
        (generatePropertyForecast d).cashFlow.monthly := by
  intro d
  exact ⟨rfl, rfl, rfl, rfl⟩

/-- Concrete scenario input of the spec's round-trip test: price 1,200,000,
deposit 200,000, rate 10.75%, term 20 years. -/
def scenarioInput : PropertyInput :=
  { propertyType := "house"
    purchasePrice := 1200000
    deposit := 200000
    interestRate := 10.75
    loanTerm := 20
    monthlyLevies := 0
    monthlyRates := 0
    expectedRent := 0
    bedrooms := 3
    bathrooms := 2
    location := "Cape Town"
    maintenancePercentage := 0
    vacancyRate := 0 }

/-- C4 counterexample: the monthly repayment on a 1,000,000 loan at 10.75%
over 20 years is not within 1 unit of 9,952 (it is ≈ 10,152.29). -/
theorem scenario_payment_not_near_9952 :
    ¬ |calculateMonthlyBondRepayment 1000000 10.75 20 - 9952| ≤ 1 := by
  intro h
  have hub := (abs_le.mp h).2
  have hval : calculateMonthlyBondRepayment 1000000 10.75 20 > 9953 := by
    unfold calculateMonthlyBondRepayment
    rw [if_neg (by norm_num)]
    norm_num
  linarith

/-- C4 (amended): for the scenario price 1,200,000, deposit 200,000, rate
10.75%, term 20 years: the loan amount is 1,000,000, the monthly repayment is
within 1 unit of R10,152, and the transfer duty on 1,200,000 is 6,000
(band 2: (1,200,000 − 1,000,000) × 0.03). -/
theorem scenario_roundtrip :
    (generatePropertyForecast scenarioInput).financingDetails.loanAmount =
        1000000 ∧
      |calculateMonthlyBondRepayment 1000000 10.75 20 - 10152| ≤ 1 ∧
      calculateTransferDuty 1200000 = 6000 := by
  refine ⟨?_, ?_, ?_⟩
  · show scenarioInput.purchasePrice - scenarioInput.deposit = 1000000
    norm_num [scenarioInput]
  · have hbounds : calculateMonthlyBondRepayment 1000000 10.75 20 > 10152 ∧
        calculateMonthlyBondRepayment 1000000 10.75 20 < 10153 := by
      unfold calculateMonthlyBondRepayment
      rw [if_neg (by norm_num)]
      constructor <;> norm_num
    rw [abs_le]
    constructor <;> linarith [hbounds.1, hbounds.2]
  · norm_num [calculateTransferDuty]

set_option maxRecDepth 16384 in
/-- C8: whenever the forecast fields read by the summarizer are monthly cash
flow 600, net yield on investment 9, ten-year annualized ROI 16 and breakeven
3 years, the generated summary contains the fragments for a healthy surplus,
excellent yield, very strong ROI, quick recovery, and the strong-opportunity
closing sentence. -/
theorem summary_strong_fragments (p : SummaryParams)
    (h1 : p.cashFlow.monthly = 600)
    (h2 : p.yields.netYieldOnInvestment = 9)
    (h3 : p.roi.tenYear.annualizedROI = 16)
    (h4 : p.breakeven.years = ((3 : ℚ) : WithTop ℚ)) :
    (∃ a b, generateInvestmentSummary p =
        a ++ "healthy monthly surplus" ++ b) ∧
    (∃ a b, generateInvestmentSummary p =
        a ++ "excellent compared to" ++ b) ∧
    (∃ a b, generateInvestmentSummary p =
        a ++ "very strong" ++ b) ∧
    (∃ a b, generateInvestmentSummary p =
        a ++ "recover your initial investment relatively quickly" ++ b) ∧
    (∃ a b, generateInvestmentSummary p =
        a ++ "Overall, this property appears to be a strong investment opportunity." ++ b) := by
  have h5 : ((3 : ℚ) : WithTop ℚ) < 5 := by norm_cast
  have hs : generateInvestmentSummary p =
      "This property is cash flow positive, generating a healthy monthly surplus. The net yield is excellent compared to South African market averages. The 10-year return on investment projection is very strong. You should recover your initial investment relatively quickly. Overall, this property appears to be a strong investment opportunity." := by
    simp only [generateInvestmentSummary, h1, h2, h3, h4]
    rw [if_pos (by norm_num : (600 : ℚ) > 500),
      if_pos (by norm_num : (9 : ℚ) > 8),
      if_pos (by norm_num : (16 : ℝ) > 15),
      if_pos h5,
      if_pos (⟨by norm_num, by norm_num⟩ : (16 : ℝ) > 12 ∧ (9 : ℚ) > 6)]
    rfl
  rw [hs]
  refine ⟨⟨"This property is cash flow positive, generating a ",
      ". The net yield is excellent compared to South African market averages. The 10-year return on investment projection is very strong. You should recover your initial investment relatively quickly. Overall, this property appears to be a strong investment opportunity.",
      by rfl⟩,
    ⟨"This property is cash flow positive, generating a healthy monthly surplus. The net yield is ",
      " South African market averages. The 10-year return on investment projection is very strong. You should recover your initial investment relatively quickly. Overall, this property appears to be a strong investment opportunity.",
      by rfl⟩,
    ⟨"This property is cash flow positive, generating a healthy monthly surplus. The net yield is excellent compared to South African market averages. The 10-year return on investment projection is ",
      ". You should recover your initial investment relatively quickly. Overall, this property appears to be a strong investment opportunity.",
      by rfl⟩,
    ⟨"This property is cash flow positive, generating a healthy monthly surplus. The net yield is excellent compared to South African market averages. The 10-year return on investment projection is very strong. You should ",
      ". Overall, this property appears to be a strong investment opportunity.",
      by rfl⟩,
    ⟨"This property is cash flow positive, generating a healthy monthly surplus. The net yield is excellent compared to South African market averages. The 10-year return on investment projection is very strong. You should recover your initial investment relatively quickly. ",
      "", by rfl⟩⟩

/-- Concrete forecast fields matching the strong-investment scenario of C8. -/
noncomputable def strongScenario : SummaryParams :=
  { cashFlow := { monthly := 600, annual := 7200 }
    yields :=
      { grossYieldOnPrice := 0
        grossYieldOnInvestment := 0
        netYieldOnPrice := 0
        netYieldOnInvestment := 9 }
    roi :=
      { fiveYear :=
          { appreciation := 0, cashFlow := 0, equityBuild := 0
            totalReturn := 0, roi := 0, annualizedROI := 0 }
        tenYear :=
          { appreciation := 0, cashFlow := 0, equityBuild := 0
            totalReturn := 0, roi := 0, annualizedROI := 16 } }
    breakeven :=
      { months := ((36 : ℚ) : WithTop ℚ), years := ((3 : ℚ) : WithTop ℚ) } }

/-- Witness for C8 at the concrete strong-investment scenario. -/
theorem summary_strong_fragments_witness :
    (∃ a b, generateInvestmentSummary strongScenario =
        a ++ "healthy monthly surplus" ++ b) ∧
    (∃ a b, generateInvestmentSummary strongScenario =
        a ++ "excellent compared to" ++ b) ∧
    (∃ a b, generateInvestmentSummary strongScenario =
        a ++ "very strong" ++ b) ∧
    (∃ a b, generateInvestmentSummary strongScenario =
        a ++ "recover your initial investment relatively quickly" ++ b) ∧
    (∃ a b, generateInvestmentSummary strongScenario =
        a ++ "Overall, this property appears to be a strong investment opportunity." ++ b) :=
  summary_strong_fragments strongScenario rfl rfl rfl rfl

end PropForecast
